import Mathlib

/-!
Shallow embedding of the authentication and device-session admission
subsystem of the Hospity web application, translated from
`apps/web/app/api/auth/[...nextauth]/route.ts`.

The Prisma-backed store is modelled as explicit lists of rows; every
data-layer call of the source (findFirst, findUnique, count, create,
update, updateMany) becomes a pure function on that state.  Timestamps
are naturals (milliseconds).  Operations of the source that can throw
take explicit failure flags so that the try/catch structure of the
callbacks can be reasoned about.
-/

namespace HospityAuth

/-- The `type` discriminator of an OTPVerification row (EMAIL or SMS). -/
inductive OTPType
  | EMAIL
  | SMS
deriving DecidableEq

/-- One OTPVerification row: identifier columns, code, type,
expiry timestamp and the verified flag. -/
structure OTPRecord where
  id : Nat
  email : Option String
  phone : Option String
  code : String
  otpType : OTPType
  expiresAt : Nat
  verified : Bool
deriving DecidableEq

/-- A subscription Plan; only `maxDevices` is read by this subsystem. -/
structure Plan where
  maxDevices : Nat
deriving DecidableEq

/-- A Tenant with its optionally resolved Plan. -/
structure Tenant where
  plan : Option Plan
deriving DecidableEq

/-- A User row with its optionally resolved Tenant. -/
structure UserRec where
  id : String
  email : Option String
  phone : Option String
  role : String
  tenant : Option Tenant
  tenantId : Option String
deriving DecidableEq

/-- One DeviceSession row. -/
structure DeviceSession where
  userId : String
  fingerprint : String
  deviceType : String
  userAgent : String
  ipAddress : String
  active : Bool
  lastSeen : Nat
deriving DecidableEq

/-- One PendingDeviceSession row, staged when admission is refused. -/
structure PendingDeviceSession where
  userId : String
  fingerprint : String
  deviceType : String
  userAgent : String
  ipAddress : String
deriving DecidableEq

/-- One AuditLogEntry row; metadata is flattened into the fields the
source writes (provider, isNewUser, timestamp). -/
structure AuditLogEntry where
  userId : String
  tenantId : Option String
  action : String
  provider : Option String
  isNewUser : Option Bool
  timestamp : Nat
deriving DecidableEq

/-- The relational store backing the subsystem. -/
structure DB where
  otps : List OTPRecord
  users : List UserRec
  deviceSessions : List DeviceSession
  pendingSessions : List PendingDeviceSession
  auditLog : List AuditLogEntry
deriving DecidableEq

/-- A fresh User row created by the email-otp authorize path:
`prisma.user.create` with email, role CUSTOMER and no tenant. -/
def emailOTPUser (nid email : String) : UserRec :=
  { id := nid, email := some email, phone := none, role := "CUSTOMER",
    tenant := none, tenantId := none }

/-- A fresh User row created by the phone-otp authorize path:
`prisma.user.create` with phone, role CUSTOMER and no tenant. -/
def phoneOTPUser (nid phone : String) : UserRec :=
  { id := nid, email := none, phone := some phone, role := "CUSTOMER",
    tenant := none, tenantId := none }

/-- The two credentials providers (email-otp and phone-otp) differ only
in which identifier column they match and create; this channel record
captures that difference so the shared authorize logic is written once. -/
structure OTPChannel where
  recIdf : OTPRecord → Option String
  userIdf : UserRec → Option String
  ty : OTPType
  mkUser : String → String → UserRec

/-- The email-otp channel. -/
def emailChannel : OTPChannel :=
  { recIdf := fun r => r.email, userIdf := fun u => u.email,
    ty := OTPType.EMAIL, mkUser := emailOTPUser }

/-- The phone-otp channel. -/
def phoneChannel : OTPChannel :=
  { recIdf := fun r => r.phone, userIdf := fun u => u.phone,
    ty := OTPType.SMS, mkUser := phoneOTPUser }

/-- The Prisma `where` clause of `oTPVerification.findFirst` in
authorize: identifier, code and type match, `expiresAt > now`, and
`verified = false`. -/
def otpMatches (ch : OTPChannel) (idf code : String) (now : Nat)
    (r : OTPRecord) : Bool :=
  decide (ch.recIdf r = some idf) && decide (r.code = code) &&
    decide (r.otpType = ch.ty) && decide (now < r.expiresAt) &&
    decide (r.verified = false)

/-- `prisma.oTPVerification.update({ where: { id }, data: { verified: true } })`:
an unconditional update keyed only by id. -/
def markVerified (i : Nat) (l : List OTPRecord) : List OTPRecord :=
  l.map fun r => if r.id = i then { r with verified := true } else r

/-- The read phase of authorize: the falsy-credentials guard followed by
`oTPVerification.findFirst` over the current store. -/
def otpFindPhase (ch : OTPChannel) (db : DB) (idf code : String)
    (now : Nat) : Option OTPRecord :=
  if idf = "" ∨ code = "" then none
  else db.otps.find? (otpMatches ch idf code now)

/-- The write phase of authorize, run after a record was found: mark the
found record verified by id, then find-or-create the User. -/
def otpConsumePhase (ch : OTPChannel) (db : DB) (idf : String)
    (r0 : OTPRecord) (nid : String) : UserRec × DB :=
  let otps := markVerified r0.id db.otps
  match db.users.find? (fun u => decide (ch.userIdf u = some idf)) with
  | some u => (u, { db with otps := otps })
  | none =>
      let nu := ch.mkUser nid idf
      (nu, { db with otps := otps, users := db.users ++ [nu] })

/-- The full authorize function of a credentials provider: find a live
matching OTP record, consume it and return the resolved user, or return
none (InvalidCredential) leaving the store unchanged. -/
def authorizeOTP (ch : OTPChannel) (db : DB) (idf code : String)
    (now : Nat) (nid : String) : Option UserRec × DB :=
  match otpFindPhase ch db idf code now with
  | none => (none, db)
  | some r0 =>
      let p := otpConsumePhase ch db idf r0 nid
      (some p.1, p.2)

/-- authorize of the email-otp provider. -/
def authorizeEmailOTP (db : DB) (email code : String) (now : Nat)
    (nid : String) : Option UserRec × DB :=
  authorizeOTP emailChannel db email code now nid

/-- authorize of the phone-otp provider. -/
def authorizePhoneOTP (db : DB) (phone code : String) (now : Nat)
    (nid : String) : Option UserRec × DB :=
  authorizeOTP phoneChannel db phone code now nid

/-- The interleaved execution of two concurrent authorize requests with
the same credentials in which both run their findFirst before either
runs its update: each request reads the initial store, then the two
consume phases run in order.  This is a legal schedule of the two
awaited Prisma calls of the source, which are not wrapped in any
transaction. -/
def concurrentEmailOTPRun (db : DB) (idf code : String) (now : Nat)
    (nid1 nid2 : String) : Option UserRec × Option UserRec × DB :=
  match otpFindPhase emailChannel db idf code now,
        otpFindPhase emailChannel db idf code now with
  | some r1, some r2 =>
      let p1 := otpConsumePhase emailChannel db idf r1 nid1
      let p2 := otpConsumePhase emailChannel p1.2 idf r2 nid2
      (some p1.1, some p2.1, p2.2)
  | some r1, none =>
      let p1 := otpConsumePhase emailChannel db idf r1 nid1
      (some p1.1, none, p1.2)
  | none, some r2 =>
      let p2 := otpConsumePhase emailChannel db idf r2 nid2
      (none, some p2.1, p2.2)
  | none, none => (none, none, db)

/-- The provider recorded on the account of a sign-in attempt. -/
inductive Provider
  | google
  | emailOtp
  | phoneOtp
deriving DecidableEq

/-- The value returned by the NextAuth signIn callback: `true` (allow),
`false` (deny), or a redirect string (here the limit-exceeded route). -/
inductive SignInResult
  | allow
  | deny
  | redirect (url : String)
deriving DecidableEq

/-- Failure flags for the data-layer calls awaited inside the signIn
callback: when a flag is set the corresponding call throws and control
passes to the surrounding catch, which returns `false`. -/
structure SignInFailures where
  userLookup : Bool
  sessionCount : Bool
  pendingCreate : Bool
  sessionCreate : Bool
deriving DecidableEq

/-- The failure configuration in which every data-layer call succeeds. -/
def noFailures : SignInFailures :=
  { userLookup := false, sessionCount := false,
    pendingCreate := false, sessionCreate := false }

/-- `prisma.deviceSession.count({ where: { userId, active: true } })`. -/
def countActive (db : DB) (uid : String) : Nat :=
  (db.deviceSessions.filter
    (fun s => decide (s.userId = uid ∧ s.active = true))).length

/-- The device limit the callback computes:
`existingUser.tenant?.plan?.maxDevices || 1`.  The optional chains give
1 when the tenant or plan is absent, and the falsy coalescing also maps
a stored limit of 0 to 1. -/
def effectiveMaxDevices (u : UserRec) : Nat :=
  match u.tenant with
  | some t =>
      match t.plan with
      | some p => if p.maxDevices = 0 then 1 else p.maxDevices
      | none => 1
  | none => 1

/-- The DeviceSession row `prisma.deviceSession.create` writes on
admission. -/
def newSession (uid fp : String) (now : Nat) : DeviceSession :=
  { userId := uid, fingerprint := fp, deviceType := "WEB",
    userAgent := "Unknown", ipAddress := "0.0.0.0",
    active := true, lastSeen := now }

/-- The PendingDeviceSession row `prisma.pendingDeviceSession.create`
writes on refusal. -/
def newPending (uid fp : String) : PendingDeviceSession :=
  { userId := uid, fingerprint := fp, deviceType := "WEB",
    userAgent := "Unknown", ipAddress := "0.0.0.0" }

/-- The signIn callback of the source.  Only the google provider runs
the admission logic, and only when a User row exists for the email:
count the active sessions, compare with the effective limit, defer
(pending row plus redirect) when the count has reached the limit,
otherwise create the active session and allow.  All other providers
fall through to `return true`.  A throw of any awaited call is caught
and the callback returns `false`; no write precedes any throwing call
on its path, so the store is unchanged on a deny. -/
def signInCallback (db : DB) (provider : Provider) (email fp : String)
    (now : Nat) (f : SignInFailures) : SignInResult × DB :=
  match provider with
  | Provider.google =>
      if f.userLookup then (SignInResult.deny, db)
      else
        match db.users.find? (fun u => decide (u.email = some email)) with
        | some u =>
            if f.sessionCount then (SignInResult.deny, db)
            else
              let activeDevices := countActive db u.id
              let maxDevices := effectiveMaxDevices u
              if activeDevices ≥ maxDevices then
                if f.pendingCreate then (SignInResult.deny, db)
                else
                  (SignInResult.redirect "/auth/device-limit-exceeded",
                   { db with pendingSessions :=
                       db.pendingSessions ++ [newPending u.id fp] })
              else
                if f.sessionCreate then (SignInResult.deny, db)
                else
                  (SignInResult.allow,
                   { db with deviceSessions :=
                       db.deviceSessions ++ [newSession u.id fp now] })
        | none => (SignInResult.allow, db)
  | _ => (SignInResult.allow, db)

/-- The error raised when an audit write throws inside an event
handler; the handlers contain no try/catch, so it propagates. -/
inductive EventError
  | auditWriteFailed
deriving DecidableEq

/-- The signIn event of the source: when the user carries an id, append
a USER_SIGNIN audit entry.  The audit write is not guarded, so a
failure propagates out of the handler. -/
def signInEvent (db : DB) (userId : Option String)
    (tenantId : Option String) (provider : Option String)
    (isNewUser : Bool) (now : Nat) (auditFails : Bool) :
    Option EventError × DB :=
  match userId with
  | none => (none, db)
  | some uid =>
      if auditFails then (some EventError.auditWriteFailed, db)
      else
        (none,
         { db with auditLog := db.auditLog ++
             [{ userId := uid, tenantId := tenantId,
                action := "USER_SIGNIN", provider := provider,
                isNewUser := some isNewUser, timestamp := now }] })

/-- The per-row effect of `deviceSession.updateMany({ where: { userId,
active: true }, data: { active: false, lastSeen: now } })`. -/
def deactivate (uid : String) (now : Nat) (s : DeviceSession) :
    DeviceSession :=
  if s.userId = uid ∧ s.active = true then
    { s with active := false, lastSeen := now }
  else s

/-- The signOut event of the source: when the token carries a user id,
`deviceSession.updateMany` sets every active row of that user to
inactive with `lastSeen` updated, then a USER_SIGNOUT audit entry is
appended.  The audit write runs after the update and is not guarded, so
an audit failure propagates with the sessions already deactivated. -/
def signOutEvent (db : DB) (sub : Option String)
    (tenantId : Option String) (now : Nat) (auditFails : Bool) :
    Option EventError × DB :=
  match sub with
  | none => (none, db)
  | some uid =>
      let sessions := db.deviceSessions.map (deactivate uid now)
      let db1 := { db with deviceSessions := sessions }
      if auditFails then (some EventError.auditWriteFailed, db1)
      else
        (none,
         { db1 with auditLog := db1.auditLog ++
             [{ userId := uid, tenantId := tenantId,
                action := "USER_SIGNOUT", provider := none,
                isNewUser := none, timestamp := now }] })

/-- `Math.floor(100000 + Math.random() * 900000)` with the random draw
modelled as a rational in [0, 1). -/
def generateOTPCode (r : ℚ) : ℤ :=
  Int.floor ((100000 : ℚ) + r * 900000)

/-- sendEmailOTP of the source: draw a code, set the expiry to now plus
ten minutes (in milliseconds), and create the OTPVerification row. -/
def sendEmailOTP (db : DB) (email : String) (now : Nat) (nid : Nat)
    (r : ℚ) : Bool × DB :=
  let code := generateOTPCode r
  let expiresAt := now + 10 * 60 * 1000
  (true,
   { db with otps := db.otps ++
       [{ id := nid, email := some email, phone := none,
          code := toString code, otpType := OTPType.EMAIL,
          expiresAt := expiresAt, verified := false }] })

/-- sendSMSOTP of the source: identical draw and expiry, with the phone
column set and type SMS. -/
def sendSMSOTP (db : DB) (phone : String) (now : Nat) (nid : Nat)
    (r : ℚ) : Bool × DB :=
  let code := generateOTPCode r
  let expiresAt := now + 10 * 60 * 1000
  (true,
   { db with otps := db.otps ++
       [{ id := nid, email := none, phone := some phone,
          code := toString code, otpType := OTPType.SMS,
          expiresAt := expiresAt, verified := false }] })

/-- The identifier / code / type part of the findFirst clause; the part
of an OTP row that identifies a given credential pair independently of
expiry and the verified flag. -/
def otpKeyMatches (ch : OTPChannel) (idf code : String)
    (r : OTPRecord) : Bool :=
  decide (ch.recIdf r = some idf) && decide (r.code = code) &&
    decide (r.otpType = ch.ty)

/-- An empty store, used by several concrete instantiations. -/
def dbEmpty : DB :=
  { otps := [], users := [], deviceSessions := [],
    pendingSessions := [], auditLog := [] }

/-- Store fixture for the C3 witness: one live email OTP row, code
482913, expiring at 600000 ms (ten minutes). -/
def dbC3 : DB :=
  { otps := [{ id := 1, email := some "a@b.c", phone := none,
               code := "482913", otpType := OTPType.EMAIL,
               expiresAt := 600000, verified := false }],
    users := [], deviceSessions := [], pendingSessions := [],
    auditLog := [] }

/-- The store after the successful first authorize on `dbC3`: the OTP
row is verified and the user has been created. -/
def dbC3b : DB :=
  { otps := [{ id := 1, email := some "a@b.c", phone := none,
               code := "482913", otpType := OTPType.EMAIL,
               expiresAt := 600000, verified := true }],
    users := [emailOTPUser "u1" "a@b.c"], deviceSessions := [],
    pendingSessions := [], auditLog := [] }

/-- Store fixture for the C4 witness: one email OTP row with the
correct code but expiring at 600000 ms; the attempt happens at
660000 ms (one minute after expiry). -/
def dbC4 : DB :=
  { otps := [{ id := 1, email := some "a@b.c", phone := none,
               code := "482913", otpType := OTPType.EMAIL,
               expiresAt := 600000, verified := false }],
    users := [], deviceSessions := [], pendingSessions := [],
    auditLog := [] }

/-- User fixture for the admission-gate instantiations: owner of a
tenant whose plan allows two devices. -/
def userC1 : UserRec :=
  { id := "u1", email := some "o@t.c", phone := none, role := "OWNER",
    tenant := some { plan := some { maxDevices := 2 } },
    tenantId := some "t1" }

/-- Store fixture for the C1 witness: `userC1` with one active device
session, one slot free. -/
def dbC1 : DB :=
  { otps := [], users := [userC1],
    deviceSessions := [newSession "u1" "fpA" 0],
    pendingSessions := [], auditLog := [] }

/-- User fixture for the C2 counterexample: a customer on a one-device
plan. -/
def userC2 : UserRec :=
  { id := "u2", email := some "c@d.e", phone := some "+15551234567",
    role := "CUSTOMER", tenant := some { plan := some { maxDevices := 1 } },
    tenantId := some "t2" }

/-- Store fixture for the C2 counterexample: `userC2` already holds one
active device session, so the user is at the device limit. -/
def dbC2 : DB :=
  { otps := [], users := [userC2],
    deviceSessions := [newSession "u2" "fpA" 0],
    pendingSessions := [], auditLog := [] }

/-- A failure configuration in which the user lookup throws. -/
def userLookupFails : SignInFailures :=
  { userLookup := true, sessionCount := false,
    pendingCreate := false, sessionCreate := false }

/-- Store fixture for the C5 witness: two users each holding sessions,
one of them with an inactive row. -/
def dbC5 : DB :=
  { otps := [], users := [],
    deviceSessions :=
      [newSession "u1" "fpA" 0,
       { userId := "u1", fingerprint := "fpB", deviceType := "WEB",
         userAgent := "Unknown", ipAddress := "0.0.0.0",
         active := false, lastSeen := 3 },
       newSession "u2" "fpC" 0],
    pendingSessions := [], auditLog := [] }

/-- Store fixture for the C6 counterexample: one active session of the
user signing out. -/
def dbC6 : DB :=
  { otps := [], users := [],
    deviceSessions := [newSession "u1" "fpA" 0],
    pendingSessions := [], auditLog := [] }

/-- OTP row fixture for the C8 interleaving: live, unverified. -/
def otpC8 : OTPRecord :=
  { id := 1, email := some "a@b.c", phone := none, code := "482913",
    otpType := OTPType.EMAIL, expiresAt := 600000, verified := false }

/-- Store fixture for the C8 interleaving: exactly one live OTP row and
no users. -/
def dbC8 : DB :=
  { otps := [otpC8], users := [], deviceSessions := [],
    pendingSessions := [], auditLog := [] }

/-- User fixture for the C10 witness: a user with no tenant at all. -/
def userC10 : UserRec :=
  { id := "g1", email := some "g@c.c", phone := none,
    role := "CUSTOMER", tenant := none, tenantId := none }

/-- Store fixture for the C10 witness: `userC10` with no sessions. -/
def dbC10 : DB :=
  { otps := [], users := [userC10], deviceSessions := [],
    pendingSessions := [], auditLog := [] }

lemma mem_eq_of_length_le_one {α : Type} {l : List α} {a b : α}
    (h : l.length ≤ 1) (ha : a ∈ l) (hb : b ∈ l) : a = b := by
  cases l with
  | nil => cases ha
  | cons x t =>
      cases t with
      | nil =>
          rw [List.mem_singleton] at ha hb
          rw [ha, hb]
      | cons y t2 => simp [List.length] at h

lemma otpConsumePhase_otps (ch : OTPChannel) (db : DB) (idf : String)
    (r0 : OTPRecord) (nid : String) :
    (otpConsumePhase ch db idf r0 nid).2.otps =
      markVerified r0.id db.otps := by
  unfold otpConsumePhase
  cases db.users.find? (fun u => decide (ch.userIdf u = some idf)) <;> rfl

/-- A successful authorize permanently invalidates the credential pair
it consumed, provided that pair identifies at most one stored row: the
retried call finds no live record and returns the failure result with
the store unchanged. -/
lemma authorizeOTP_single_use (ch : OTPChannel) (db : DB)
    (idf code : String) (now1 now2 : Nat) (nid1 nid2 : String)
    (u : UserRec) (db1 : DB)
    (hkey : (db.otps.filter (otpKeyMatches ch idf code)).length ≤ 1)
    (hsucc : authorizeOTP ch db idf code now1 nid1 = (some u, db1)) :
    authorizeOTP ch db1 idf code now2 nid2 = (none, db1) := by
  unfold authorizeOTP at hsucc ⊢
  cases hfind : otpFindPhase ch db idf code now1 with
  | none => rw [hfind] at hsucc; simp at hsucc
  | some r0 =>
      rw [hfind] at hsucc
      have hdb1 : db1 = (otpConsumePhase ch db idf r0 nid1).2 := by
        have h2 := congrArg Prod.snd hsucc
        simpa using h2.symm
      have hotps : db1.otps = markVerified r0.id db.otps := by
        rw [hdb1, otpConsumePhase_otps]
      unfold otpFindPhase at hfind
      by_cases hg : idf = "" ∨ code = ""
      · rw [if_pos hg] at hfind; cases hfind
      · rw [if_neg hg] at hfind
        have hr0mem : r0 ∈ db.otps := List.mem_of_find?_eq_some hfind
        have hr0p : otpMatches ch idf code now1 r0 = true :=
          List.find?_some hfind
        have hr0key : otpKeyMatches ch idf code r0 = true := by
          simp only [otpMatches, Bool.and_eq_true, decide_eq_true_eq]
            at hr0p
          simp only [otpKeyMatches, Bool.and_eq_true, decide_eq_true_eq]
          exact ⟨⟨hr0p.1.1.1.1, hr0p.1.1.1.2⟩, hr0p.1.1.2⟩
        have hnone : otpFindPhase ch db1 idf code now2 = none := by
          unfold otpFindPhase
          rw [if_neg hg, List.find?_eq_none]
          intro r hr
          rw [hotps] at hr
          unfold markVerified at hr
          obtain ⟨r1, hr1mem, hr1eq⟩ := List.mem_map.mp hr
          by_cases hid : r1.id = r0.id
          · rw [if_pos hid] at hr1eq
            subst hr1eq
            intro hmatch
            simp only [otpMatches, Bool.and_eq_true, decide_eq_true_eq]
              at hmatch
            cases hmatch.2
          · rw [if_neg hid] at hr1eq
            subst hr1eq
            intro hmatch
            simp only [otpMatches, Bool.and_eq_true, decide_eq_true_eq]
              at hmatch
            have hr1key : otpKeyMatches ch idf code r1 = true := by
              simp only [otpKeyMatches, Bool.and_eq_true,
                decide_eq_true_eq]
              exact ⟨⟨hmatch.1.1.1.1, hmatch.1.1.1.2⟩, hmatch.1.1.2⟩
            have h1 : r1 ∈ db.otps.filter (otpKeyMatches ch idf code) :=
              List.mem_filter.mpr ⟨hr1mem, hr1key⟩
            have h0 : r0 ∈ db.otps.filter (otpKeyMatches ch idf code) :=
              List.mem_filter.mpr ⟨hr0mem, hr0key⟩
            exact hid (congrArg OTPRecord.id
              (mem_eq_of_length_le_one hkey h1 h0))
        rw [hnone]

/-- When every stored row for the identifier and type is expired, the
findFirst clause matches nothing and authorize fails with the store
untouched, whatever code was submitted. -/
lemma authorizeOTP_expired (ch : OTPChannel) (db : DB)
    (idf code : String) (now : Nat) (nid : String)
    (hexp : ∀ r ∈ db.otps, ch.recIdf r = some idf → r.otpType = ch.ty →
      r.expiresAt ≤ now) :
    authorizeOTP ch db idf code now nid = (none, db) := by
  unfold authorizeOTP
  have hnone : otpFindPhase ch db idf code now = none := by
    unfold otpFindPhase
    by_cases hg : idf = "" ∨ code = ""
    · rw [if_pos hg]
    · rw [if_neg hg, List.find?_eq_none]
      intro r hr hmatch
      simp only [otpMatches, Bool.and_eq_true, decide_eq_true_eq]
        at hmatch
      exact absurd hmatch.1.2
        (not_lt.mpr (hexp r hr hmatch.1.1.1.1 hmatch.1.1.2))
  rw [hnone]

/-- C3: OTP verification is single-use under sequential retry.  For
both the email-otp and the phone-otp provider: when the store holds at
most one row for the submitted identifier and code and an authorize
call succeeds (marking that row verified), a second authorize call with
the same identifier and code returns the failure result and leaves the
store, in particular the User table, unchanged. -/
theorem otp_verification_single_use :
    (∀ (db : DB) (email code : String) (now1 now2 : Nat)
       (nid1 nid2 : String) (u : UserRec) (db1 : DB),
       (db.otps.filter (otpKeyMatches emailChannel email code)).length
         ≤ 1 →
       authorizeEmailOTP db email code now1 nid1 = (some u, db1) →
       authorizeEmailOTP db1 email code now2 nid2 = (none, db1)) ∧
    (∀ (db : DB) (phone code : String) (now1 now2 : Nat)
       (nid1 nid2 : String) (u : UserRec) (db1 : DB),
       (db.otps.filter (otpKeyMatches phoneChannel phone code)).length
         ≤ 1 →
       authorizePhoneOTP db phone code now1 nid1 = (some u, db1) →
       authorizePhoneOTP db1 phone code now2 nid2 = (none, db1)) :=
  ⟨fun db email code now1 now2 nid1 nid2 u db1 hkey hsucc =>
     authorizeOTP_single_use emailChannel db email code now1 now2
       nid1 nid2 u db1 hkey hsucc,
   fun db phone code now1 now2 nid1 nid2 u db1 hkey hsucc =>
     authorizeOTP_single_use phoneChannel db phone code now1 now2
       nid1 nid2 u db1 hkey hsucc⟩

theorem otp_verification_single_use_witness :
    (dbC3.otps.filter (otpKeyMatches emailChannel "a@b.c" "482913")).length
      ≤ 1 ∧
    authorizeEmailOTP dbC3 "a@b.c" "482913" 120000 "u1" =
      (some (emailOTPUser "u1" "a@b.c"), dbC3b) ∧
    authorizeEmailOTP dbC3b "a@b.c" "482913" 180000 "u2" =
      (none, dbC3b) :=
  ⟨by decide, by decide,
   otp_verification_single_use.1 dbC3 "a@b.c" "482913" 120000 180000
     "u1" "u2" (emailOTPUser "u1" "a@b.c") dbC3b (by decide)
     (by decide)⟩

/-- C4: an OTP verification attempt made at or after the expiry of
every stored row for the identifier fails for any submitted code value,
for both providers, and returns the store unchanged (no OTP row is
modified and no User row is created). -/
theorem otp_expired_attempt_fails :
    (∀ (db : DB) (email code : String) (now : Nat) (nid : String),
       (∀ r ∈ db.otps, r.email = some email →
         r.otpType = OTPType.EMAIL → r.expiresAt ≤ now) →
       authorizeEmailOTP db email code now nid = (none, db)) ∧
    (∀ (db : DB) (phone code : String) (now : Nat) (nid : String),
       (∀ r ∈ db.otps, r.phone = some phone →
         r.otpType = OTPType.SMS → r.expiresAt ≤ now) →
       authorizePhoneOTP db phone code now nid = (none, db)) :=
  ⟨fun db email code now nid hexp =>
     authorizeOTP_expired emailChannel db email code now nid hexp,
   fun db phone code now nid hexp =>
     authorizeOTP_expired phoneChannel db phone code now nid hexp⟩

theorem otp_expired_attempt_fails_witness :
    (∀ r ∈ dbC4.otps, r.email = some "a@b.c" →
      r.otpType = OTPType.EMAIL → r.expiresAt ≤ 660000) ∧
    authorizeEmailOTP dbC4 "a@b.c" "482913" 660000 "u1" =
      (none, dbC4) :=
  ⟨by decide,
   otp_expired_attempt_fails.1 dbC4 "a@b.c" "482913" 660000 "u1"
     (by decide)⟩

/-- Characterisation of the failure-free signIn callback on the google
path when a User row exists for the email: the count of active sessions
is compared with the effective limit, and the callback either defers
(pending row plus redirect) or admits (new active session). -/
lemma signInCallback_google_spec (db : DB) (email fp : String)
    (now : Nat) (u : UserRec)
    (hu : db.users.find? (fun x => decide (x.email = some email)) =
      some u) :
    signInCallback db Provider.google email fp now noFailures =
      if countActive db u.id ≥ effectiveMaxDevices u then
        (SignInResult.redirect "/auth/device-limit-exceeded",
         { db with pendingSessions :=
             db.pendingSessions ++ [newPending u.id fp] })
      else
        (SignInResult.allow,
         { db with deviceSessions :=
             db.deviceSessions ++ [newSession u.id fp now] }) := by
  simp [signInCallback, noFailures, hu]

lemma countActive_append_newSession (db : DB) (uid fp : String)
    (now : Nat) :
    countActive
      { db with deviceSessions := db.deviceSessions ++
          [newSession uid fp now] } uid = countActive db uid + 1 := by
  unfold countActive newSession
  simp [List.filter_append]

lemma countActive_pending_unchanged (db : DB) (uid fp pid : String) :
    countActive
      { db with pendingSessions := db.pendingSessions ++
          [newPending pid fp] } uid = countActive db uid := rfl

/-- C1: a single execution of the failure-free admission step preserves
the device-limit invariant.  When the count of active sessions of the
resolved user is strictly below the effective limit, a new active
DeviceSession row is created and the callback allows the sign-in; when
the count has reached the limit, no DeviceSession row is created, a
PendingDeviceSession row is created and the callback returns the
limit-exceeded redirect; hence the active count stays at most the limit
whenever it was at most the limit before. -/
theorem signin_admission_preserves_limit (db : DB) (email fp : String)
    (now : Nat) (u : UserRec)
    (hu : db.users.find? (fun x => decide (x.email = some email)) =
      some u) :
    (countActive db u.id < effectiveMaxDevices u →
       signInCallback db Provider.google email fp now noFailures =
         (SignInResult.allow,
          { db with deviceSessions :=
              db.deviceSessions ++ [newSession u.id fp now] }) ∧
       countActive
         { db with deviceSessions :=
             db.deviceSessions ++ [newSession u.id fp now] } u.id =
         countActive db u.id + 1) ∧
    (effectiveMaxDevices u ≤ countActive db u.id →
       signInCallback db Provider.google email fp now noFailures =
         (SignInResult.redirect "/auth/device-limit-exceeded",
          { db with pendingSessions :=
              db.pendingSessions ++ [newPending u.id fp] })) ∧
    (countActive db u.id ≤ effectiveMaxDevices u →
       countActive
         (signInCallback db Provider.google email fp now noFailures).2
         u.id ≤ effectiveMaxDevices u) := by
  have hs := signInCallback_google_spec db email fp now u hu
  refine ⟨?_, ?_, ?_⟩
  · intro hlt
    rw [if_neg (not_le.mpr hlt)] at hs
    exact ⟨hs, countActive_append_newSession db u.id fp now⟩
  · intro hge
    rw [if_pos hge] at hs
    exact hs
  · intro hinv
    rcases lt_or_ge (countActive db u.id) (effectiveMaxDevices u) with
      hlt | hge
    · rw [if_neg (not_le.mpr hlt)] at hs
      rw [hs]
      rw [countActive_append_newSession db u.id fp now]
      exact hlt
    · rw [if_pos hge] at hs
      rw [hs]
      rw [countActive_pending_unchanged db u.id fp u.id]
      exact hinv

theorem signin_admission_preserves_limit_witness :
    signInCallback dbC1 Provider.google "o@t.c" "fpB" 5 noFailures =
      (SignInResult.allow,
       { dbC1 with deviceSessions :=
           dbC1.deviceSessions ++ [newSession "u1" "fpB" 5] }) :=
  ((signin_admission_preserves_limit dbC1 "o@t.c" "fpB" 5 userC1
      (by decide)).1 (by decide)).1

/-- C2 counterexample: the admission gate is not invoked for the
email-otp or phone-otp provider.  In a store where the user is already
at the device limit (one active session, limit one), a sign-in through
either credentials provider completes with `true` and leaves the store
untouched: no session is counted against the limit, no DeviceSession or
PendingDeviceSession row is created and no defer decision is made. -/
theorem gate_skipped_for_otp_counterexample :
    countActive dbC2 "u2" = 1 ∧ effectiveMaxDevices userC2 = 1 ∧
    signInCallback dbC2 Provider.emailOtp "c@d.e" "fpB" 7 noFailures =
      (SignInResult.allow, dbC2) ∧
    signInCallback dbC2 Provider.phoneOtp "c@d.e" "fpB" 7 noFailures =
      (SignInResult.allow, dbC2) := by
  decide

/-- C2 amended: the Session Admission Gate is invoked only for Google
OAuth sign-ins; a sign-in attempt through any other provider returns
`true` with the store unchanged, whatever the state of the store and
the failure flags. -/
theorem gate_only_for_google (db : DB) (provider : Provider)
    (email fp : String) (now : Nat) (f : SignInFailures)
    (h : provider ≠ Provider.google) :
    signInCallback db provider email fp now f =
      (SignInResult.allow, db) := by
  cases provider with
  | google => exact absurd rfl h
  | emailOtp => rfl
  | phoneOtp => rfl

theorem gate_only_for_google_witness :
    Provider.emailOtp ≠ Provider.google ∧
    signInCallback dbEmpty Provider.emailOtp "c@d.e" "fpB" 7
      noFailures = (SignInResult.allow, dbEmpty) :=
  ⟨by decide,
   gate_only_for_google dbEmpty Provider.emailOtp "c@d.e" "fpB" 7
     noFailures (by decide)⟩

/-- C7: a data-layer throw inside the signIn callback makes the
callback return `false` with the store unchanged; a sign-in is never
admitted on such an error.  The disjunction enumerates the awaited
calls of the executed path: user lookup (which includes the plan
lookup), session count, pending-session create on the deferred branch
and session create on the admitted branch. -/
theorem signin_error_denies (db : DB) (email fp : String) (now : Nat)
    (f : SignInFailures)
    (h : f.userLookup = true ∨
      ∃ u, db.users.find? (fun x => decide (x.email = some email)) =
          some u ∧
        (f.sessionCount = true ∨
         (effectiveMaxDevices u ≤ countActive db u.id ∧
           f.pendingCreate = true) ∨
         (countActive db u.id < effectiveMaxDevices u ∧
           f.sessionCreate = true))) :
    signInCallback db Provider.google email fp now f =
      (SignInResult.deny, db) := by
  by_cases hul : f.userLookup = true
  · simp [signInCallback, hul]
  · rcases h with h | ⟨u, hu, hcase⟩
    · exact absurd h hul
    · by_cases hsct : f.sessionCount = true
      · simp [signInCallback, hul, hu, hsct]
      · rcases hcase with hc | ⟨hge, hpc⟩ | ⟨hlt, hsc⟩
        · exact absurd hc hsct
        · simp [signInCallback, hul, hu, hsct, hge, hpc]
        · simp [signInCallback, hul, hu, hsct, hsc, not_le.mpr hlt]

theorem signin_error_denies_witness :
    signInCallback dbC1 Provider.google "o@t.c" "fpB" 5
      userLookupFails = (SignInResult.deny, dbC1) :=
  signin_error_denies dbC1 "o@t.c" "fpB" 5 userLookupFails
    (Or.inl (by decide))

/-- C10: when the resolved user has no tenant, a tenant without a plan,
or a plan whose stored `maxDevices` is 0, the falsy coalescing gives an
effective limit of exactly 1; such a user with no active session is
admitted, and any further sign-in while one session is active is
deferred to the limit-exceeded redirect. -/
theorem default_device_limit (db : DB) (email fp : String) (now : Nat)
    (u : UserRec)
    (hu : db.users.find? (fun x => decide (x.email = some email)) =
      some u)
    (hdef : u.tenant = none ∨ u.tenant = some { plan := none } ∨
      ∃ t p, u.tenant = some t ∧ t.plan = some p ∧ p.maxDevices = 0) :
    effectiveMaxDevices u = 1 ∧
    (countActive db u.id = 0 →
      signInCallback db Provider.google email fp now noFailures =
        (SignInResult.allow,
         { db with deviceSessions :=
             db.deviceSessions ++ [newSession u.id fp now] })) ∧
    (1 ≤ countActive db u.id →
      signInCallback db Provider.google email fp now noFailures =
        (SignInResult.redirect "/auth/device-limit-exceeded",
         { db with pendingSessions :=
             db.pendingSessions ++ [newPending u.id fp] })) := by
  have hmax : effectiveMaxDevices u = 1 := by
    rcases hdef with h | h | ⟨t, p, ht, hp, hm⟩
    · simp [effectiveMaxDevices, h]
    · simp [effectiveMaxDevices, h]
    · simp [effectiveMaxDevices, ht, hp, hm]
  have hs := signInCallback_google_spec db email fp now u hu
  rw [hmax] at hs
  refine ⟨hmax, ?_, ?_⟩
  · intro h0
    rw [h0] at hs
    rw [if_neg (by omega)] at hs
    exact hs
  · intro h1
    rw [if_pos h1] at hs
    exact hs

theorem default_device_limit_witness :
    effectiveMaxDevices userC10 = 1 ∧
    signInCallback dbC10 Provider.google "g@c.c" "fpA" 3 noFailures =
      (SignInResult.allow,
       { dbC10 with deviceSessions :=
           dbC10.deviceSessions ++ [newSession "g1" "fpA" 3] }) :=
  ⟨(default_device_limit dbC10 "g@c.c" "fpA" 3 userC10 (by decide)
      (Or.inl rfl)).1,
   (default_device_limit dbC10 "g@c.c" "fpA" 3 userC10 (by decide)
      (Or.inl rfl)).2.1 (by decide)⟩

/-- C5: on sign-out with a token carrying a user id (failure-free
path), the event completes, appends exactly one USER_SIGNOUT audit
entry for that user, and rewrites the DeviceSession table so that no
row is added or removed, every row of another user is kept unchanged,
every row of the signing-out user ends inactive, and every previously
active row of that user ends inactive with `lastSeen` set to the
current time. -/
theorem signout_deactivates_and_audits (db : DB) (uid : String)
    (tid : Option String) (now : Nat) :
    (signOutEvent db (some uid) tid now false).1 = none ∧
    (signOutEvent db (some uid) tid now false).2.auditLog =
      db.auditLog ++
        [{ userId := uid, tenantId := tid, action := "USER_SIGNOUT",
           provider := none, isNewUser := none, timestamp := now }] ∧
    (signOutEvent db (some uid) tid now false).2.deviceSessions.length =
      db.deviceSessions.length ∧
    (∀ s ∈ db.deviceSessions, s.userId ≠ uid →
      s ∈ (signOutEvent db (some uid) tid now false).2.deviceSessions) ∧
    (∀ s ∈ (signOutEvent db (some uid) tid now false).2.deviceSessions,
      s.userId = uid → s.active = false) ∧
    (∀ s ∈ db.deviceSessions, s.userId = uid → s.active = true →
      { s with active := false, lastSeen := now } ∈
        (signOutEvent db (some uid) tid now false).2.deviceSessions) := by
  have hsess : (signOutEvent db (some uid) tid now false).2.deviceSessions =
      db.deviceSessions.map (deactivate uid now) := rfl
  refine ⟨rfl, rfl, ?_, ?_, ?_, ?_⟩
  · rw [hsess, List.length_map]
  · intro s hs hne
    rw [hsess]
    have hfix : deactivate uid now s = s := by
      unfold deactivate
      rw [if_neg]
      intro hc
      exact hne hc.1
    exact List.mem_map.mpr ⟨s, hs, hfix⟩
  · intro s hs heq
    rw [hsess] at hs
    obtain ⟨s0, hs0, hfs⟩ := List.mem_map.mp hs
    unfold deactivate at hfs
    by_cases hc : s0.userId = uid ∧ s0.active = true
    · rw [if_pos hc] at hfs
      rw [← hfs]
    · rw [if_neg hc] at hfs
      subst hfs
      cases hact : s0.active with
      | false => rfl
      | true => exact absurd ⟨heq, hact⟩ hc
  · intro s hs h1 h2
    rw [hsess]
    have hfix : deactivate uid now s =
        { s with active := false, lastSeen := now } := by
      unfold deactivate
      rw [if_pos ⟨h1, h2⟩]
    exact List.mem_map.mpr ⟨s, hs, hfix⟩

theorem signout_deactivates_and_audits_witness :
    (signOutEvent dbC5 (some "u1") (some "t1") 42 false).1 = none ∧
    (signOutEvent dbC5 (some "u1") (some "t1") 42 false).2.auditLog =
      dbC5.auditLog ++
        [{ userId := "u1", tenantId := some "t1",
           action := "USER_SIGNOUT", provider := none,
           isNewUser := none, timestamp := 42 }] ∧
    (signOutEvent dbC5 (some "u1") (some "t1") 42
        false).2.deviceSessions.length =
      dbC5.deviceSessions.length :=
  ⟨(signout_deactivates_and_audits dbC5 "u1" (some "t1") 42).1,
   (signout_deactivates_and_audits dbC5 "u1" (some "t1") 42).2.1,
   (signout_deactivates_and_audits dbC5 "u1" (some "t1") 42).2.2.1⟩

/-- C6 counterexample: a failing audit write makes the sign-out and
sign-in event handlers end in the propagated error instead of
completing; the source wraps neither audit write in a try/catch. -/
theorem audit_failure_counterexample :
    (signOutEvent dbC6 (some "u1") none 5 true).1 =
      some EventError.auditWriteFailed ∧
    (signInEvent dbC6 (some "u1") none (some "google") false 5
        true).1 = some EventError.auditWriteFailed := by
  decide

/-- C6 amended: audit writes in the signIn and signOut event handlers
are not guarded, so a failing AuditLogEntry write propagates its error
out of the handler; no audit entry is recorded, and in the signOut case
the device sessions have already been deactivated when the error
escapes. -/
theorem audit_failure_propagates (db : DB) (uid : String)
    (tid : Option String) (p : Option String) (b : Bool) (now : Nat) :
    (signInEvent db (some uid) tid p b now true).1 =
      some EventError.auditWriteFailed ∧
    (signInEvent db (some uid) tid p b now true).2 = db ∧
    (signOutEvent db (some uid) tid now true).1 =
      some EventError.auditWriteFailed ∧
    (signOutEvent db (some uid) tid now true).2.auditLog =
      db.auditLog ∧
    (signOutEvent db (some uid) tid now true).2.deviceSessions =
      db.deviceSessions.map (deactivate uid now) :=
  ⟨rfl, rfl, rfl, rfl, rfl⟩

/-- C8 counterexample: two concurrent verification attempts with the
same valid code can both succeed.  The mark-verified step is an
unconditional update keyed by the id found by a prior findFirst, with
no transaction around the pair; in the schedule where both requests run
their findFirst before either runs its update, both attempts return a
user.  On the one-live-row store both components of the interleaved run
are successes, refuting exactly-one-success. -/
theorem concurrent_otp_counterexample :
    ((concurrentEmailOTPRun dbC8 "a@b.c" "482913" 0 "u1"
        "u2").1).isSome = true ∧
    ((concurrentEmailOTPRun dbC8 "a@b.c" "482913" 0 "u1"
        "u2").2.1).isSome = true := by
  decide

/-- C8 amended: the unverified-to-verified transition is not a
single-winner conditional operation.  Whenever the initial store holds
a record matching the credentials, the interleaving in which both
concurrent attempts perform their findFirst before either performs its
update-by-id makes both attempts succeed. -/
theorem concurrent_otp_double_success (db : DB) (idf code : String)
    (now : Nat) (nid1 nid2 : String) (r : OTPRecord)
    (hfind : otpFindPhase emailChannel db idf code now = some r) :
    ((concurrentEmailOTPRun db idf code now nid1 nid2).1).isSome =
      true ∧
    ((concurrentEmailOTPRun db idf code now nid1 nid2).2.1).isSome =
      true := by
  unfold concurrentEmailOTPRun
  rw [hfind]
  exact ⟨rfl, rfl⟩

theorem concurrent_otp_double_success_witness :
    otpFindPhase emailChannel dbC8 "a@b.c" "482913" 0 = some otpC8 ∧
    ((concurrentEmailOTPRun dbC8 "a@b.c" "482913" 0 "u3"
        "u4").1).isSome = true ∧
    ((concurrentEmailOTPRun dbC8 "a@b.c" "482913" 0 "u3"
        "u4").2.1).isSome = true :=
  ⟨by decide,
   (concurrent_otp_double_success dbC8 "a@b.c" "482913" 0 "u3" "u4"
      otpC8 (by decide)).1,
   (concurrent_otp_double_success dbC8 "a@b.c" "482913" 0 "u3" "u4"
      otpC8 (by decide)).2⟩

/-- C9: for every value of the random draw in [0, 1), the generated OTP
code is an integer between 100000 and 999999 (a six-digit number), and
both senders create a row carrying that code as its string form with an
expiry of exactly the creation time plus ten minutes (600000 ms). -/
theorem otp_code_range_and_expiry (db : DB) (idf : String)
    (now nid : Nat) (r : ℚ) (h0 : 0 ≤ r) (h1 : r < 1) :
    100000 ≤ generateOTPCode r ∧ generateOTPCode r ≤ 999999 ∧
    (sendEmailOTP db idf now nid r).2.otps = db.otps ++
      [{ id := nid, email := some idf, phone := none,
         code := toString (generateOTPCode r),
         otpType := OTPType.EMAIL,
         expiresAt := now + 10 * 60 * 1000, verified := false }] ∧
    (sendSMSOTP db idf now nid r).2.otps = db.otps ++
      [{ id := nid, email := none, phone := some idf,
         code := toString (generateOTPCode r),
         otpType := OTPType.SMS,
         expiresAt := now + 10 * 60 * 1000, verified := false }] := by
  refine ⟨?_, ?_, rfl, rfl⟩
  · unfold generateOTPCode
    rw [Int.le_floor]
    push_cast
    nlinarith
  · unfold generateOTPCode
    have hlt : Int.floor ((100000 : ℚ) + r * 900000) < 1000000 := by
      rw [Int.floor_lt]
      push_cast
      nlinarith
    omega

theorem otp_code_range_and_expiry_witness :
    (0 : ℚ) ≤ 1 / 2 ∧ (1 / 2 : ℚ) < 1 ∧
    100000 ≤ generateOTPCode (1 / 2) ∧
    generateOTPCode (1 / 2) ≤ 999999 :=
  ⟨by norm_num, by norm_num,
   (otp_code_range_and_expiry dbEmpty "a@b.c" 0 1 (1 / 2)
      (by norm_num) (by norm_num)).1,
   (otp_code_range_and_expiry dbEmpty "a@b.c" 0 1 (1 / 2)
      (by norm_num) (by norm_num)).2.1⟩

end HospityAuth
